import Mathlib

/-!
Verification development for the retirement-projection engine in
`src/retirement_app.py`.

The engine is embedded shallowly over `ℚ` (Python floats become exact
rationals; the qualitative claims checked here — lengths, signs, bounds,
termination — are arithmetic-order facts that are insensitive to rounding).
Python's `ZeroDivisionError` (raised by the closed-form annuity expression
when a monthly rate is zero) is modelled by `Option`: a computation that
would raise returns `none`.

The single quantity that is not rational is the monthly-equivalent
inflation `(1 + inflation_rate)^(1/12) - 1` (line 260 of the source), a
twelfth root that is irrational for general rational inflation rates.  It
is abstracted as the parameter field `monthly_inflation_geom`; when
`inflation_rate = 0` the source value is exactly `0`, which is the value
used by all concrete witnesses below.  Theorems that depend on it only use
its sign.
-/

namespace RetirementApp

/-- Input record of `calculate_retirement_plan` (source lines 171-176).
Ages are naturals; every monetary amount and rate is a rational.
`monthly_inflation_geom` abstracts the irrational twelfth root
`(1 + inflation_rate)^(1/12) - 1` computed at source line 260. -/
structure Params where
  current_age : ℕ
  retirement_age : ℕ
  current_portfolio : ℚ
  monthly_sip : ℚ
  existing_epf : ℚ
  monthly_epf : ℚ
  epf_return : ℚ
  other_assets : ℚ
  asset_appreciation : ℚ
  pre_ret_return : ℚ
  post_ret_return : ℚ
  inflation_rate : ℚ
  current_monthly_exp : ℚ
  one_time_exp : ℚ
  show_real_terms : Bool
  include_ltcg : Bool
  equity_allocation : ℚ
  debt_allocation : ℚ
  debt_tax_slab : ℚ
  ltcg_exempt_limit : ℚ
  monthly_inflation_geom : ℚ
deriving DecidableEq

/-- Years from current age to retirement (source line 178).  The engine is
only ever invoked with `current_age < retirement_age` (the module guard at
source lines 35-37), so the natural-number truncated subtraction agrees
with the Python `int` subtraction on every reachable input. -/
def yearsToRet (p : Params) : ℕ := p.retirement_age - p.current_age

/-- Monthly-equivalent inflation used by the depletion loop
(source lines 260-262): the geometric monthly rate, forced to `0` when
values are displayed in real terms. -/
def Params.monthly_inflation (p : Params) : ℚ :=
  if p.show_real_terms then 0 else p.monthly_inflation_geom

/-- LTCG tax on a withdrawal (source lines 144-169).  The early return at
`current_value <= 0` and the guarded `gains_ratio` division are kept
exactly as written; `0.125` is the exact rational `1/8`, the value of the
Python float literal. -/
def calculate_ltcg_tax (withdrawal_amount cost_basis current_value
    equity_allocation debt_allocation debt_tax_slab ltcg_exempt_limit : ℚ) : ℚ :=
  if current_value ≤ 0 then 0
  else
    let total_gains := max 0 (current_value - cost_basis)
    let gainsFrac := if 0 < current_value then total_gains / current_value else 0
    let gains_in_withdrawal := withdrawal_amount * gainsFrac
    let equity_gains := gains_in_withdrawal * equity_allocation
    let taxable_equity_gains := max 0 (equity_gains - ltcg_exempt_limit)
    let equity_tax := taxable_equity_gains * (125 / 1000)
    let debt_gains := gains_in_withdrawal * debt_allocation
    let debt_tax := debt_gains * debt_tax_slab
    equity_tax + debt_tax

/-- SIP accumulation for month count `m` (source lines 196-200).  The
closed-form annuity-due value divides by `monthly_rate_pre`; when that
rate is `0` and `m > 0` Python raises `ZeroDivisionError`, modelled as
`none`. -/
def sip_accumulation (monthly_sip monthly_rate_pre : ℚ) (m : ℕ) : Option ℚ :=
  if 0 < m then
    if monthly_rate_pre = 0 then none
    else some (monthly_sip * (((1 + monthly_rate_pre) ^ m - 1) / monthly_rate_pre) *
      (1 + monthly_rate_pre))
  else some 0

/-- EPF accumulation for year `y`, month count `m` (source lines 202-215):
existing corpus compounds annually, new contributions use the annuity-due
form with the monthly EPF rate (again `none` on the rate-zero division);
the whole component is `0` when there is no monthly EPF contribution. -/
def epf_accumulation (existing_epf monthly_epf epf_return monthly_epf_rate : ℚ)
    (y m : ℕ) : Option ℚ :=
  if 0 < monthly_epf then
    let existing_epf_growth := existing_epf * (1 + epf_return) ^ y
    if 0 < m then
      if monthly_epf_rate = 0 then none
      else some (existing_epf_growth + monthly_epf *
        (((1 + monthly_epf_rate) ^ m - 1) / monthly_epf_rate) * (1 + monthly_epf_rate))
    else some existing_epf_growth
  else some 0

/-- One stored accumulation row: the four component values
(lumpsum, SIP, EPF, other assets) as appended to the trajectory lists. -/
abbrev Row := ℚ × ℚ × ℚ × ℚ

/-- One iteration of the accumulation loop (source lines 189-231) at year
offset `y`: the four component values, each divided by the inflation
factor when real-terms display is on (lines 221-226) and stored scaled by
`1e7` (lines 228-231). -/
def accRow (p : Params) (y : ℕ) : Option Row :=
  let m := y * 12
  (sip_accumulation p.monthly_sip (p.pre_ret_return / 12) m).bind fun sip_val =>
    (epf_accumulation p.existing_epf p.monthly_epf p.epf_return
        (p.epf_return / 12) y m).bind fun epf_val =>
      let lump_val := p.current_portfolio * (1 + p.pre_ret_return) ^ y
      let asset_val := p.other_assets * (1 + p.asset_appreciation) ^ y
      let infl := if p.show_real_terms then (1 + p.inflation_rate) ^ y else 1
      some (lump_val / infl / 10 ^ 7, sip_val / infl / 10 ^ 7,
        epf_val / infl / 10 ^ 7, asset_val / infl / 10 ^ 7)

/-- The accumulation rows for a list of year offsets; `none` as soon as
any single row raises. -/
def accRows (p : Params) : List ℕ → Option (List Row)
  | [] => some []
  | y :: ys =>
    match accRow p y, accRows p ys with
    | some r, some rs => some (r :: rs)
    | _, _ => none

/-- Mutable state of the decumulation loop (source lines 254-257):
total corpus, market-linked (MF) value, MF cost basis, current monthly
expense. -/
structure DepState where
  corpus : ℚ
  mf : ℚ
  basis : ℚ
  exp : ℚ
deriving DecidableEq

/-- One month of the decumulation loop (source lines 272-300): grow corpus
and MF value, compute the month's LTCG tax when enabled and the MF value
is positive, withdraw expense plus tax from both balances, reduce the cost
basis proportionally when the post-withdrawal MF value is positive, and
inflate the expense.  Returns the new state and the month's tax. -/
def monthStep (p : Params) (s : DepState) : DepState × ℚ :=
  let monthly_rate_post := p.post_ret_return / 12
  let corpus1 := s.corpus * (1 + monthly_rate_post)
  let mf1 := s.mf * (1 + monthly_rate_post)
  let monthly_tax :=
    if p.include_ltcg ∧ 0 < mf1 then
      calculate_ltcg_tax s.exp s.basis mf1 p.equity_allocation p.debt_allocation
        p.debt_tax_slab (p.ltcg_exempt_limit / 12)
    else 0
  let total_withdrawal := s.exp + monthly_tax
  let corpus2 := corpus1 - total_withdrawal
  let mf2 := mf1 - total_withdrawal
  let basis2 :=
    if 0 < mf2 then s.basis * (1 - total_withdrawal / (mf2 + total_withdrawal))
    else s.basis
  let exp2 := s.exp * (1 + p.monthly_inflation)
  (⟨corpus2, mf2, basis2, exp2⟩, monthly_tax)

/-- The inner month loop (source lines 271-303): up to `n` months (the
source runs `n = 12`), stopping early the first month the corpus is
`≤ 0` (the `break` at line 302-303).  Returns the list of (state, tax)
pairs of the months actually executed, in order. -/
def runMonths (p : Params) : ℕ → DepState → List (DepState × ℚ)
  | 0, _ => []
  | n + 1, s =>
    let step := monthStep p s
    if step.1.corpus ≤ 0 then [step]
    else step :: runMonths p n step.1

/-- Everything the yearly depletion loop produces: the per-year trajectory
entries `(age, max 0 (corpus/1e7), cumulative_tax/1e5)` (source lines
305-309), the full monthly state trace (instrumentation used to state the
cost-basis invariant), and the final age, state and cumulative tax. -/
structure DepOutcome where
  entries : List (ℕ × ℚ × ℚ)
  trace : List DepState
  final_age : ℕ
  final_state : DepState
  cumulative_tax : ℚ

/-- The yearly depletion loop (source lines 267-312):
`while temp_corpus > 0 and age < 100`.  The `age < 100` guard is encoded
by `fuel` (the caller passes `100 - retirement_age`, so `fuel > 0` iff
`age < 100`).  Each iteration runs 12 months with early break, advances
the age, appends one trajectory entry, and stops if the corpus is
depleted. -/
def depLoop (p : Params) : ℕ → ℕ → DepState → ℚ → DepOutcome
  | 0, age, s, cum => ⟨[], [], age, s, cum⟩
  | fuel + 1, age, s, cum =>
    if 0 < s.corpus then
      let months := runMonths p 12 s
      let s1 := (months.getLastD (s, 0)).1
      let annual_tax := (months.map Prod.snd).sum
      let cum1 := cum + annual_tax
      let entry := (age + 1, max 0 (s1.corpus / 10 ^ 7), cum1 / 10 ^ 5)
      if s1.corpus ≤ 0 then
        ⟨[entry], months.map Prod.fst, age + 1, s1, cum1⟩
      else
        let rest := depLoop p fuel (age + 1) s1 cum1
        ⟨entry :: rest.entries, months.map Prod.fst ++ rest.trace,
          rest.final_age, rest.final_state, rest.cumulative_tax⟩
    else ⟨[], [], age, s, cum⟩

/-- Total MF principal at the end of the accumulation loop (source lines
187 and 198): the starting portfolio plus `monthly_sip * 12` for each of
the `yearsToRet` iterations with `m > 0`. -/
def total_invested_mf (p : Params) : ℚ :=
  p.current_portfolio + p.monthly_sip * 12 * (yearsToRet p : ℚ)

/-- Net worth at retirement (source lines 233-238), reassembled from the
final stored row (the source reads `lump_vals[-1]` etc. and multiplies the
`1e7` scaling back out). -/
def total_at_ret_of (t : Row) : ℚ :=
  (t.1 + t.2.1) * 10 ^ 7 + t.2.2.1 * 10 ^ 7 + t.2.2.2 * 10 ^ 7

/-- Monthly expense at retirement (source lines 248-250). -/
def exp_at_ret_of (p : Params) : ℚ :=
  if p.show_real_terms then p.current_monthly_exp
  else p.current_monthly_exp * (1 + p.inflation_rate) ^ yearsToRet p

/-- Initial state of the decumulation loop (source lines 254-258), built
from the final accumulation row `t`: corpus after the one-time outflow,
untouched MF value, MF cost basis, inflated expense. -/
def depStart (p : Params) (t : Row) : DepState :=
  ⟨total_at_ret_of t - p.one_time_exp, (t.1 + t.2.1) * 10 ^ 7,
    total_invested_mf p, exp_at_ret_of p⟩

/-- The full depletion outcome for final accumulation row `t`. -/
def depOut (p : Params) (t : Row) : DepOutcome :=
  depLoop p (100 - p.retirement_age) p.retirement_age (depStart p t) 0

/-- Result record of `calculate_retirement_plan` (source lines 314-331).
The three parallel depletion lists `dep_ages`, `dep_values`,
`dep_tax_paid` are stored as one list of triples `dep_entries`;
`dep_trace` is the monthly state trace (instrumentation, not part of the
Python dict). -/
structure PlanResult where
  acc_ages : List ℕ
  lump_vals : List ℚ
  sip_vals : List ℚ
  epf_vals : List ℚ
  asset_vals : List ℚ
  dep_entries : List (ℕ × ℚ × ℚ)
  dep_trace : List DepState
  total_at_ret : ℚ
  corpus_after_one_time : ℚ
  exp_at_ret_monthly : ℚ
  survival_age : ℕ
  total_invested : ℚ
  cumulative_ltcg_tax : ℚ
  mf_cost_basis : ℚ
  mf_value_at_ret : ℚ

/-- Assembly of the result record from the stored rows and the final row
(source lines 233-331). -/
def planAssemble (p : Params) (rows : List Row) (t : Row) : PlanResult where
  acc_ages := (List.range (yearsToRet p + 1)).map (p.current_age + ·)
  lump_vals := rows.map (·.1)
  sip_vals := rows.map (·.2.1)
  epf_vals := rows.map (·.2.2.1)
  asset_vals := rows.map (·.2.2.2)
  dep_entries := (depOut p t).entries
  dep_trace := (depOut p t).trace
  total_at_ret := total_at_ret_of t
  corpus_after_one_time := total_at_ret_of t - p.one_time_exp
  exp_at_ret_monthly := exp_at_ret_of p
  survival_age :=
    if (depOut p t).final_state.corpus ≤ 0 then (depOut p t).final_age else 100
  total_invested := total_invested_mf p + p.existing_epf +
    (if 0 < p.monthly_epf then p.monthly_epf * ((yearsToRet p * 12 : ℕ) : ℚ) else 0)
  cumulative_ltcg_tax := (depOut p t).cumulative_tax
  mf_cost_basis := total_invested_mf p
  mf_value_at_ret := (t.1 + t.2.1) * 10 ^ 7

/-- The engine (source lines 171-331): run the accumulation loop over year
offsets `0..yearsToRet`, read the final row (`lump_vals[-1]` etc.), run
the depletion loop, and assemble the result.  `none` exactly when the
Python function raises `ZeroDivisionError` in an annuity formula. -/
def calculate_retirement_plan (p : Params) : Option PlanResult :=
  match accRows p (List.range (yearsToRet p + 1)) with
  | none => none
  | some rows =>
    match rows.getLast? with
    | none => none
    | some t => some (planAssemble p rows t)

/-- Outcome of the module-level flow around the engine. -/
inductive AppOutcome where
  | precondition_error : AppOutcome
  | result : Option PlanResult → AppOutcome

/-- The module-level input validation (source lines 35-37): when
`retirement_age ≤ current_age` the script shows an error and `st.stop()`s
before `calculate_retirement_plan` is ever called (line 334). -/
def runApp (p : Params) : AppOutcome :=
  if p.retirement_age ≤ p.current_age then .precondition_error
  else .result (calculate_retirement_plan p)

/-! ### Derived closed forms

Totalized values of the three accumulation components.  They agree with
the `Option`-valued embedding wherever the latter does not raise (shown in
`accRow_some_inv` below); they exist only to give the characterization
lemmas something to state. -/

/-- Inflation deflator of stored values (source lines 221-226). -/
def inflFac (p : Params) (y : ℕ) : ℚ :=
  if p.show_real_terms then (1 + p.inflation_rate) ^ y else 1

/-- Closed-form SIP component at year offset `y` (source line 197). -/
def sipVal (p : Params) (y : ℕ) : ℚ :=
  if 0 < y * 12 then
    p.monthly_sip * (((1 + p.pre_ret_return / 12) ^ (y * 12) - 1) / (p.pre_ret_return / 12)) *
      (1 + p.pre_ret_return / 12)
  else 0

/-- Closed-form EPF component at year offset `y` (source lines 202-215). -/
def epfVal (p : Params) (y : ℕ) : ℚ :=
  if 0 < p.monthly_epf then
    p.existing_epf * (1 + p.epf_return) ^ y +
      (if 0 < y * 12 then
        p.monthly_epf * (((1 + p.epf_return / 12) ^ (y * 12) - 1) / (p.epf_return / 12)) *
          (1 + p.epf_return / 12)
      else 0)
  else 0

/-- The cost-basis invariant that the decumulation loop actually
maintains: the expense and basis stay non-negative, and the basis stays
below the market-linked value for as long as that value stays positive. -/
def DepInv (s : DepState) : Prop :=
  0 ≤ s.exp ∧ 0 ≤ s.basis ∧ (0 < s.mf → s.basis ≤ s.mf)

/-! ### Concrete parameter records used by witnesses and counterexamples -/


/-- Valid parameters (all rates and amounts non-negative, retirement age
above current age) whose pre-retirement return is zero: the engine's SIP
annuity formula divides by zero on them. -/
def pC1cex : Params :=
  { current_age := 41
    retirement_age := 42
    current_portfolio := 3300000
    monthly_sip := 100000
    existing_epf := 0
    monthly_epf := 0
    epf_return := 0
    other_assets := 0
    asset_appreciation := 0
    pre_ret_return := 0
    post_ret_return := 0
    inflation_rate := 0
    current_monthly_exp := 0
    one_time_exp := 0
    show_real_terms := false
    include_ltcg := false
    equity_allocation := 7 / 10
    debt_allocation := 3 / 10
    debt_tax_slab := 1 / 10
    ltcg_exempt_limit := 125000
    monthly_inflation_geom := 0 }

/-- Witness parameters for the amended C1: one accumulation year with all
four components active. -/
def pC1w : Params :=
  { current_age := 98
    retirement_age := 99
    current_portfolio := 3300000
    monthly_sip := 100000
    existing_epf := 1050000
    monthly_epf := 6000
    epf_return := 81 / 1000
    other_assets := 500000
    asset_appreciation := 5 / 100
    pre_ret_return := 12 / 100
    post_ret_return := 0
    inflation_rate := 6 / 100
    current_monthly_exp := 100000
    one_time_exp := 6500000
    show_real_terms := false
    include_ltcg := false
    equity_allocation := 7 / 10
    debt_allocation := 3 / 10
    debt_tax_slab := 1 / 10
    ltcg_exempt_limit := 125000
    monthly_inflation_geom := 0 }

/-- Failing input for C2: positive SIP, two years to retirement, zero
pre-retirement return. -/
def pC2cex : Params :=
  { current_age := 41
    retirement_age := 43
    current_portfolio := 0
    monthly_sip := 100000
    existing_epf := 0
    monthly_epf := 0
    epf_return := 0
    other_assets := 0
    asset_appreciation := 0
    pre_ret_return := 0
    post_ret_return := 0
    inflation_rate := 0
    current_monthly_exp := 0
    one_time_exp := 0
    show_real_terms := false
    include_ltcg := false
    equity_allocation := 7 / 10
    debt_allocation := 3 / 10
    debt_tax_slab := 1 / 10
    ltcg_exempt_limit := 125000
    monthly_inflation_geom := 0 }

/-- Witness parameters for C3/C6: positive corpus at retirement and one
year of depletion headroom. -/
def pC3w : Params :=
  { current_age := 98
    retirement_age := 99
    current_portfolio := 1000000
    monthly_sip := 0
    existing_epf := 0
    monthly_epf := 0
    epf_return := 0
    other_assets := 0
    asset_appreciation := 0
    pre_ret_return := 12 / 100
    post_ret_return := 0
    inflation_rate := 0
    current_monthly_exp := 10000
    one_time_exp := 0
    show_real_terms := false
    include_ltcg := false
    equity_allocation := 7 / 10
    debt_allocation := 3 / 10
    debt_tax_slab := 1 / 10
    ltcg_exempt_limit := 125000
    monthly_inflation_geom := 0 }

/-- Counterexample parameters for C4: a small MF balance that is exhausted
mid-year while large other assets keep the total corpus positive, with
tax modeling on (configured so the tax itself is zero). -/
def pC4cex : Params :=
  { current_age := 98
    retirement_age := 99
    current_portfolio := 10000
    monthly_sip := 0
    existing_epf := 0
    monthly_epf := 0
    epf_return := 0
    other_assets := 1000000
    asset_appreciation := 0
    pre_ret_return := 12 / 100
    post_ret_return := 0
    inflation_rate := 0
    current_monthly_exp := 2000
    one_time_exp := 0
    show_real_terms := false
    include_ltcg := true
    equity_allocation := 0
    debt_allocation := 1
    debt_tax_slab := 0
    ltcg_exempt_limit := 0
    monthly_inflation_geom := 0 }

/-- Witness parameters for C6: same as the C3 witness shape. -/
def pC6w : Params :=
  { current_age := 98
    retirement_age := 99
    current_portfolio := 1000000
    monthly_sip := 0
    existing_epf := 0
    monthly_epf := 0
    epf_return := 0
    other_assets := 0
    asset_appreciation := 0
    pre_ret_return := 12 / 100
    post_ret_return := 0
    inflation_rate := 0
    current_monthly_exp := 8000
    one_time_exp := 0
    show_real_terms := false
    include_ltcg := false
    equity_allocation := 7 / 10
    debt_allocation := 3 / 10
    debt_tax_slab := 1 / 10
    ltcg_exempt_limit := 125000
    monthly_inflation_geom := 0 }

/-- Counterexample base for C7: real-terms display with inflation far
above the return, so a later retirement age shows a smaller deflated
corpus.  The one-time outflow dwarfs the corpus so the depletion loop
stops immediately. -/
def pC7cexA : Params :=
  { current_age := 41
    retirement_age := 43
    current_portfolio := 0
    monthly_sip := 100000
    existing_epf := 0
    monthly_epf := 0
    epf_return := 0
    other_assets := 0
    asset_appreciation := 0
    pre_ret_return := 12 / 100
    post_ret_return := 0
    inflation_rate := 99 / 100
    current_monthly_exp := 0
    one_time_exp := 1000000000
    show_real_terms := true
    include_ltcg := false
    equity_allocation := 7 / 10
    debt_allocation := 3 / 10
    debt_tax_slab := 1 / 10
    ltcg_exempt_limit := 125000
    monthly_inflation_geom := 0 }

/-- The C7 counterexample's alternate scenario: identical to `pC7cexA`
except for the retirement age. -/
def pC7cexB : Params := { pC7cexA with retirement_age := 44 }

/-- Witness base for the amended C7 (nominal display). -/
def pC7w : Params :=
  { current_age := 41
    retirement_age := 43
    current_portfolio := 0
    monthly_sip := 100000
    existing_epf := 0
    monthly_epf := 0
    epf_return := 0
    other_assets := 0
    asset_appreciation := 0
    pre_ret_return := 12 / 100
    post_ret_return := 0
    inflation_rate := 0
    current_monthly_exp := 0
    one_time_exp := 1000000000
    show_real_terms := false
    include_ltcg := false
    equity_allocation := 7 / 10
    debt_allocation := 3 / 10
    debt_tax_slab := 1 / 10
    ltcg_exempt_limit := 125000
    monthly_inflation_geom := 0 }

/-- Witness parameters for C8: the one-time outflow exceeds the entire
corpus at retirement. -/
def pC8w : Params :=
  { current_age := 98
    retirement_age := 99
    current_portfolio := 1000000
    monthly_sip := 0
    existing_epf := 0
    monthly_epf := 0
    epf_return := 0
    other_assets := 0
    asset_appreciation := 0
    pre_ret_return := 12 / 100
    post_ret_return := 0
    inflation_rate := 0
    current_monthly_exp := 10000
    one_time_exp := 2000000
    show_real_terms := false
    include_ltcg := false
    equity_allocation := 7 / 10
    debt_allocation := 3 / 10
    debt_tax_slab := 1 / 10
    ltcg_exempt_limit := 125000
    monthly_inflation_geom := 0 }

/-- Witness parameters for C9: retirement age not above current age. -/
def pC9w : Params :=
  { current_age := 55
    retirement_age := 55
    current_portfolio := 0
    monthly_sip := 0
    existing_epf := 0
    monthly_epf := 0
    epf_return := 0
    other_assets := 0
    asset_appreciation := 0
    pre_ret_return := 0
    post_ret_return := 0
    inflation_rate := 0
    current_monthly_exp := 0
    one_time_exp := 0
    show_real_terms := false
    include_ltcg := false
    equity_allocation := 7 / 10
    debt_allocation := 3 / 10
    debt_tax_slab := 1 / 10
    ltcg_exempt_limit := 125000
    monthly_inflation_geom := 0 }

/-- Witness parameters for C10: positive existing EPF balance with no
monthly EPF contribution. -/
def pC10w : Params :=
  { current_age := 98
    retirement_age := 99
    current_portfolio := 1000000
    monthly_sip := 0
    existing_epf := 1050000
    monthly_epf := 0
    epf_return := 0
    other_assets := 0
    asset_appreciation := 0
    pre_ret_return := 12 / 100
    post_ret_return := 0
    inflation_rate := 0
    current_monthly_exp := 10000
    one_time_exp := 0
    show_real_terms := false
    include_ltcg := false
    equity_allocation := 7 / 10
    debt_allocation := 3 / 10
    debt_tax_slab := 1 / 10
    ltcg_exempt_limit := 125000
    monthly_inflation_geom := 0 }

/-! ### Basic structural lemmas -/

/-- Inverting a successful engine run into its accumulation rows, final
row, and assembled record. -/
theorem plan_some_inv {p : Params} {r : PlanResult}
    (h : calculate_retirement_plan p = some r) :
    ∃ rows t, accRows p (List.range (yearsToRet p + 1)) = some rows ∧
      rows.getLast? = some t ∧ r = planAssemble p rows t := by
  unfold calculate_retirement_plan at h
  split at h
  · exact absurd h (by simp)
  · rename_i rows h1
    split at h
    · exact absurd h (by simp)
    · rename_i t h2
      exact ⟨rows, t, h1, h2, (Option.some.inj h).symm⟩

/-- A successful row list has one row per requested year offset. -/
theorem accRows_length {p : Params} : ∀ {l : List ℕ} {rows : List Row},
    accRows p l = some rows → rows.length = l.length := by
  intro l
  induction l with
  | nil => intro rows h; simp only [accRows] at h; simp [← Option.some.inj h]
  | cons y ys ih =>
    intro rows h
    simp only [accRows] at h
    cases h1 : accRow p y with
    | none => rw [h1] at h; exact absurd h (by simp)
    | some r =>
      rw [h1] at h
      cases h2 : accRows p ys with
      | none => rw [h2] at h; exact absurd h (by simp)
      | some rs =>
        rw [h2] at h
        rw [← Option.some.inj h]
        simp [ih h2]

/-- Every produced row comes from `accRow` at one of the requested year
offsets. -/
theorem accRows_mem {p : Params} : ∀ {l : List ℕ} {rows : List Row},
    accRows p l = some rows → ∀ r ∈ rows, ∃ y ∈ l, accRow p y = some r := by
  intro l
  induction l with
  | nil => intro rows h; simp only [accRows] at h; simp [← Option.some.inj h]
  | cons y ys ih =>
    intro rows h
    simp only [accRows] at h
    cases h1 : accRow p y with
    | none => rw [h1] at h; exact absurd h (by simp)
    | some r =>
      rw [h1] at h
      cases h2 : accRows p ys with
      | none => rw [h2] at h; exact absurd h (by simp)
      | some rs =>
        rw [h2] at h
        rw [← Option.some.inj h]
        intro x hx
        rcases List.mem_cons.1 hx with hx | hx
        · exact ⟨y, List.mem_cons_self _ _, hx ▸ h1⟩
        · obtain ⟨y', hy', hrow⟩ := ih h2 x hx
          exact ⟨y', List.mem_cons_of_mem _ hy', hrow⟩

/-- The last row of a successful run over `l ++ [y]` is the `accRow`
at `y`. -/
theorem accRows_getLast {p : Params} : ∀ {l : List ℕ} {y : ℕ} {rows : List Row},
    accRows p (l ++ [y]) = some rows →
      ∃ t, rows.getLast? = some t ∧ accRow p y = some t := by
  intro l
  induction l with
  | nil =>
    intro y rows h
    simp only [List.nil_append, accRows] at h
    cases h1 : accRow p y with
    | none => rw [h1] at h; exact absurd h (by simp)
    | some t =>
      rw [h1] at h
      refine ⟨t, ?_, rfl⟩
      simp only [accRows] at h
      rw [← Option.some.inj h]
      rfl
  | cons a l' ih =>
    intro y rows h
    simp only [List.cons_append, accRows, List.append_eq] at h
    cases h1 : accRow p a with
    | none => rw [h1] at h; exact absurd h (by simp)
    | some r =>
      rw [h1] at h
      cases h2 : accRows p (l' ++ [y]) with
      | none => rw [h2] at h; exact absurd h (by simp)
      | some rs =>
        rw [h2] at h
        obtain ⟨t, ht, hrow⟩ := ih h2
        refine ⟨t, ?_, hrow⟩
        rw [← Option.some.inj h]
        have hne : rs ≠ [] := by
          intro hnil
          rw [hnil] at ht
          simp at ht
        cases rs with
        | nil => exact absurd rfl hne
        | cons b bs => rw [List.getLast?_cons_cons]; exact ht

/-- When every requested row succeeds, the whole list succeeds. -/
theorem accRows_isSome {p : Params} : ∀ {l : List ℕ},
    (∀ y ∈ l, (accRow p y).isSome) → ∃ rows, accRows p l = some rows := by
  intro l
  induction l with
  | nil => exact fun _ => ⟨[], rfl⟩
  | cons y ys ih =>
    intro h
    obtain ⟨r, hr⟩ := Option.isSome_iff_exists.1 (h y (List.mem_cons_self _ _))
    obtain ⟨rs, hrs⟩ := ih fun z hz => h z (List.mem_cons_of_mem _ hz)
    exact ⟨r :: rs, by simp only [accRows]; rw [hr, hrs]⟩

/-- A successful SIP accumulation produced the closed-form value (and not
the raising branch). -/
theorem sip_accumulation_some {c r : ℚ} {m : ℕ} {v : ℚ}
    (h : sip_accumulation c r m = some v) :
    v = if 0 < m then c * (((1 + r) ^ m - 1) / r) * (1 + r) else 0 := by
  unfold sip_accumulation at h
  split_ifs at h with hm hr
  · rw [← Option.some.inj h]; simp [hm]
  · rw [← Option.some.inj h]; simp [hm]

/-- A successful EPF accumulation produced the closed-form value. -/
theorem epf_accumulation_some {e c er r : ℚ} {y m : ℕ} {v : ℚ}
    (h : epf_accumulation e c er r y m = some v) :
    v = if 0 < c then
        e * (1 + er) ^ y + (if 0 < m then c * (((1 + r) ^ m - 1) / r) * (1 + r) else 0)
      else 0 := by
  unfold epf_accumulation at h
  split_ifs at h with hc hm hr
  · simp only [Option.some.injEq] at h
    rw [← h]; simp [hc, hm]
  · simp only [Option.some.injEq] at h
    rw [← h]; simp [hc, hm]
  · simp only [Option.some.injEq] at h
    rw [← h]; simp [hc]

/-- Every successful accumulation row is the quadruple of totalized
closed forms. -/
theorem accRow_some_inv {p : Params} {y : ℕ} {t : Row} (h : accRow p y = some t) :
    t = (p.current_portfolio * (1 + p.pre_ret_return) ^ y / inflFac p y / 10 ^ 7,
      sipVal p y / inflFac p y / 10 ^ 7,
      epfVal p y / inflFac p y / 10 ^ 7,
      p.other_assets * (1 + p.asset_appreciation) ^ y / inflFac p y / 10 ^ 7) := by
  simp only [accRow] at h
  cases hsip : sip_accumulation p.monthly_sip (p.pre_ret_return / 12) (y * 12) with
  | none => simp [hsip] at h
  | some sv =>
    cases hepf : epf_accumulation p.existing_epf p.monthly_epf p.epf_return
        (p.epf_return / 12) y (y * 12) with
    | none => simp [hsip, hepf] at h
    | some ev =>
      simp only [hsip, hepf, Option.some_bind, Option.some.injEq] at h
      have h1 : sv = sipVal p y := by rw [sip_accumulation_some hsip]; rfl
      have h2 : ev = epfVal p y := by rw [epf_accumulation_some hepf]; rfl
      rw [← h, h1, h2]
      rfl

/-- The accumulation row never raises once the pre-retirement rate is
nonzero and the EPF configuration is consistent. -/
theorem accRow_isSome_of_pos {p : Params} (hpre : p.pre_ret_return ≠ 0)
    (hepf : p.monthly_epf ≤ 0 ∨ p.epf_return ≠ 0) (y : ℕ) : (accRow p y).isSome := by
  have hr : p.pre_ret_return / 12 ≠ 0 := by simp [div_eq_zero_iff, hpre]
  have hsip : (sip_accumulation p.monthly_sip (p.pre_ret_return / 12) (y * 12)).isSome := by
    unfold sip_accumulation; split_ifs <;> simp_all
  have hepf2 :
      (epf_accumulation p.existing_epf p.monthly_epf p.epf_return (p.epf_return / 12)
        y (y * 12)).isSome := by
    unfold epf_accumulation
    rcases hepf with h | h
    · simp [not_lt.2 h]
    · have her : p.epf_return / 12 ≠ 0 := by simp [div_eq_zero_iff, h]
      split_ifs <;> simp_all
  obtain ⟨sv, hsv⟩ := Option.isSome_iff_exists.1 hsip
  obtain ⟨ev, hev⟩ := Option.isSome_iff_exists.1 hepf2
  simp [accRow, hsv, hev]

/-- The deflator is positive for non-negative inflation. -/
theorem inflFac_pos {p : Params} (h : 0 ≤ p.inflation_rate) (y : ℕ) : 0 < inflFac p y := by
  unfold inflFac
  split_ifs
  · exact pow_pos (by linarith) y
  · norm_num

/-! ### Arithmetic facts about the annuity-due closed form -/

/-- The annuity-due value is non-negative (also at rate zero, where the
totalized form collapses to `0`). -/
theorem annuity_term_nonneg {c r : ℚ} (hc : 0 ≤ c) (hr : 0 ≤ r) (m : ℕ) :
    0 ≤ c * (((1 + r) ^ m - 1) / r) * (1 + r) := by
  rcases hr.eq_or_lt with h0 | h0
  · rw [← h0]; norm_num
  · have h1 : (1 : ℚ) ≤ (1 + r) ^ m := one_le_pow₀ (by linarith)
    have h2 : 0 ≤ ((1 + r) ^ m - 1) / r := div_nonneg (by linarith) h0.le
    exact mul_nonneg (mul_nonneg hc h2) (by linarith)

/-- Bernoulli: the annuity-due value dominates the linear sum of the
contributions. -/
theorem annuity_term_ge_linear {c r : ℚ} (hc : 0 ≤ c) (hr : 0 < r) (m : ℕ) :
    c * m ≤ c * (((1 + r) ^ m - 1) / r) * (1 + r) := by
  have hb : 1 + (m : ℚ) * r ≤ (1 + r) ^ m := one_add_mul_le_pow (by linarith) m
  have hdiv : (m : ℚ) ≤ ((1 + r) ^ m - 1) / r := (le_div_iff₀ hr).2 (by linarith)
  have h0 : 0 ≤ c * (((1 + r) ^ m - 1) / r) :=
    mul_nonneg hc (le_trans (Nat.cast_nonneg m) hdiv)
  calc c * m ≤ c * (((1 + r) ^ m - 1) / r) := mul_le_mul_of_nonneg_left hdiv hc
    _ ≤ c * (((1 + r) ^ m - 1) / r) * (1 + r) :=
        le_mul_of_one_le_right h0 (by linarith)

/-- The annuity-due value is strictly increasing in the month count. -/
theorem annuity_term_lt {c r : ℚ} (hc : 0 < c) (hr : 0 < r) {m1 m2 : ℕ}
    (h : m1 < m2) :
    c * (((1 + r) ^ m1 - 1) / r) * (1 + r) < c * (((1 + r) ^ m2 - 1) / r) * (1 + r) := by
  have hpow : (1 + r) ^ m1 < (1 + r) ^ m2 := pow_lt_pow_right₀ (by linarith) h
  have hx : ((1 + r) ^ m1 - 1) / r < ((1 + r) ^ m2 - 1) / r :=
    (div_lt_div_iff_of_pos_right hr).2 (by linarith)
  exact mul_lt_mul_of_pos_right (mul_lt_mul_of_pos_left hx hc) (by linarith)

/-- The annuity-due value is monotone in the month count (also at rate
zero, where both sides collapse to `0`). -/
theorem annuity_term_mono {c r : ℚ} (hc : 0 ≤ c) (hr : 0 ≤ r) {m1 m2 : ℕ}
    (h : m1 ≤ m2) :
    c * (((1 + r) ^ m1 - 1) / r) * (1 + r) ≤ c * (((1 + r) ^ m2 - 1) / r) * (1 + r) := by
  rcases hr.eq_or_lt with h0 | h0
  · rw [← h0]; norm_num
  · have hpow : (1 + r) ^ m1 ≤ (1 + r) ^ m2 := pow_le_pow_right₀ (by linarith) h
    have hx : ((1 + r) ^ m1 - 1) / r ≤ ((1 + r) ^ m2 - 1) / r :=
      (div_le_div_iff_of_pos_right h0).2 (by linarith)
    exact mul_le_mul_of_nonneg_right (mul_le_mul_of_nonneg_left hx hc) (by linarith)

/-! ### Properties of the LTCG tax function -/

/-- The computed tax is non-negative whenever the withdrawal, the debt
allocation and the slab rate are. -/
theorem ltcg_tax_nonneg {w b cv ea da ts ex : ℚ} (hw : 0 ≤ w) (hda : 0 ≤ da)
    (hts : 0 ≤ ts) : 0 ≤ calculate_ltcg_tax w b cv ea da ts ex := by
  simp only [calculate_ltcg_tax]
  split_ifs with h1 h2
  · exact le_refl 0
  · have hfrac : 0 ≤ max 0 (cv - b) / cv := div_nonneg (le_max_left _ _) (le_of_lt h2)
    have hd : 0 ≤ w * (max 0 (cv - b) / cv) * da * ts :=
      mul_nonneg (mul_nonneg (mul_nonneg hw hfrac) hda) hts
    have he : 0 ≤ max 0 (w * (max 0 (cv - b) / cv) * ea - ex) * (125 / 1000) :=
      mul_nonneg (le_max_left _ _) (by norm_num)
    linarith
  · exact absurd (not_le.1 h1) h2

/-! ### Structural properties of the depletion loop -/

/-- When the corpus at entry is not positive, the loop does nothing
(source line 267: `while temp_corpus > 0 and age < 100`). -/
theorem depLoop_of_nonpos {p : Params} {s : DepState} (h : ¬ 0 < s.corpus)
    (fuel age : ℕ) (cum : ℚ) : depLoop p fuel age s cum = ⟨[], [], age, s, cum⟩ := by
  cases fuel with
  | zero => rfl
  | succ n => simp only [depLoop]; rw [if_neg h]

/-- The loop executes at most `fuel` yearly iterations, hence records at
most `fuel` trajectory entries. -/
theorem depLoop_entries_length (p : Params) :
    ∀ (fuel age : ℕ) (s : DepState) (cum : ℚ),
      (depLoop p fuel age s cum).entries.length ≤ fuel := by
  intro fuel
  induction fuel with
  | zero => intro age s cum; simp [depLoop]
  | succ n ih =>
    intro age s cum
    simp only [depLoop]
    split_ifs with h1 h2
    · simp
    · simpa using Nat.succ_le_succ (ih (age + 1) _ _)
    · simp

/-- Every recorded remaining-corpus value is clamped with `max 0`
(source line 307), hence non-negative. -/
theorem depLoop_entries_nonneg (p : Params) :
    ∀ (fuel age : ℕ) (s : DepState) (cum : ℚ),
      ∀ e ∈ (depLoop p fuel age s cum).entries, 0 ≤ e.2.1 := by
  intro fuel
  induction fuel with
  | zero => intro age s cum e he; simp [depLoop] at he
  | succ n ih =>
    intro age s cum e he
    simp only [depLoop] at he
    split_ifs at he with h1 h2
    · rw [List.mem_singleton] at he
      rw [he]
      exact le_max_left _ _
    · rcases List.mem_cons.1 he with he | he
      · rw [he]; exact le_max_left _ _
      · exact ih (age + 1) _ _ e he
    · simp at he

/-- Every recorded value except possibly the final one is strictly
positive: the loop stops the first year the working corpus is `≤ 0`. -/
theorem depLoop_dropLast_pos (p : Params) :
    ∀ (fuel age : ℕ) (s : DepState) (cum : ℚ),
      ∀ e ∈ (depLoop p fuel age s cum).entries.dropLast, 0 < e.2.1 := by
  intro fuel
  induction fuel with
  | zero => intro age s cum e he; simp [depLoop] at he
  | succ n ih =>
    intro age s cum e he
    simp only [depLoop] at he
    split_ifs at he with h1 h2
    · simp at he
    · set rest := depLoop p n (age + 1)
        ((runMonths p 12 s).getLastD (s, 0)).1 (cum + ((runMonths p 12 s).map Prod.snd).sum)
        with hrest
      rcases hre : rest.entries with _ | ⟨b, bs⟩
      · rw [hre] at he
        simp at he
      · rw [hre] at he
        rw [List.dropLast_cons₂] at he
        rcases List.mem_cons.1 he with he | he
        · rw [he]
          have hpos : 0 < ((runMonths p 12 s).getLastD (s, 0)).1.corpus / 10 ^ 7 := by
            have := not_le.1 h2
            positivity
          simp only []
          exact lt_max_of_lt_right hpos
        · have := ih (age + 1)
            ((runMonths p 12 s).getLastD (s, 0)).1 (cum + ((runMonths p 12 s).map Prod.snd).sum)
            e
          rw [← hrest, hre] at this
          exact this he
    · simp at he

/-- The final age never moves past `age + fuel`. -/
theorem depLoop_final_age_le (p : Params) :
    ∀ (fuel age : ℕ) (s : DepState) (cum : ℚ),
      (depLoop p fuel age s cum).final_age ≤ age + fuel := by
  intro fuel
  induction fuel with
  | zero => intro age s cum; simp [depLoop]
  | succ n ih =>
    intro age s cum
    simp only [depLoop]
    split_ifs with h1 h2
    · simp
    · have := ih (age + 1)
        ((runMonths p 12 s).getLastD (s, 0)).1 (cum + ((runMonths p 12 s).map Prod.snd).sum)
      simp only []
      omega
    · simp

/-- With tax modeling off, a month's tax is zero (the `else` branch at
source line 286-287). -/
theorem monthStep_tax_zero {p : Params} (h : p.include_ltcg = false) (s : DepState) :
    (monthStep p s).2 = 0 := by
  simp [monthStep, h]

/-- With tax modeling off, every executed month's tax is zero. -/
theorem runMonths_tax_zero {p : Params} (h : p.include_ltcg = false) :
    ∀ (n : ℕ) (s : DepState), ∀ x ∈ runMonths p n s, x.2 = 0 := by
  intro n
  induction n with
  | zero => intro s x hx; simp [runMonths] at hx
  | succ k ih =>
    intro s x hx
    simp only [runMonths] at hx
    split_ifs at hx with h1
    · rw [List.mem_singleton] at hx
      rw [hx]
      exact monthStep_tax_zero h s
    · rcases List.mem_cons.1 hx with hx | hx
      · rw [hx]; exact monthStep_tax_zero h s
      · exact ih _ x hx

/-- With tax modeling off, the cumulative tax never moves and every
recorded tax entry equals the entry value `cum / 1e5`. -/
theorem depLoop_tax_zero {p : Params} (h : p.include_ltcg = false) :
    ∀ (fuel age : ℕ) (s : DepState) (cum : ℚ),
      (depLoop p fuel age s cum).cumulative_tax = cum ∧
        ∀ e ∈ (depLoop p fuel age s cum).entries, e.2.2 = cum / 10 ^ 5 := by
  intro fuel
  induction fuel with
  | zero => intro age s cum; exact ⟨rfl, by simp [depLoop]⟩
  | succ n ih =>
    intro age s cum
    have hsum : ((runMonths p 12 s).map Prod.snd).sum = 0 := by
      apply List.sum_eq_zero
      intro x hx
      obtain ⟨y, hy, hyx⟩ := List.mem_map.1 hx
      rw [← hyx]
      exact runMonths_tax_zero h 12 s y hy
    simp only [depLoop]
    split_ifs with h1 h2
    · constructor
      · simp [hsum]
      · intro e he
        rw [List.mem_singleton] at he
        rw [he]
        simp [hsum]
    · obtain ⟨ihc, ihe⟩ := ih (age + 1) ((runMonths p 12 s).getLastD (s, 0)).1
        (cum + ((runMonths p 12 s).map Prod.snd).sum)
      constructor
      · simpa [hsum] using ihc
      · intro e he
        simp only [] at he
        rcases List.mem_cons.1 he with he | he
        · rw [he]; simp [hsum]
        · have := ihe e he
          rw [hsum, add_zero] at this
          exact this
    · exact ⟨rfl, by simp⟩

/-- The default-or-member property of `getLastD`. -/
theorem getLastD_eq_or_mem {α : Type} (l : List α) (d : α) :
    l.getLastD d = d ∨ l.getLastD d ∈ l := by
  induction l generalizing d with
  | nil => exact Or.inl rfl
  | cons a l ih =>
    rw [List.getLastD_cons]
    rcases ih a with h | h
    · exact Or.inr (by rw [h]; exact List.mem_cons_self a l)
    · exact Or.inr (List.mem_cons_of_mem _ h)

/-- One month of the loop preserves `DepInv`: the proportional basis
update multiplies by `mf2 / mf1 ∈ [0, 1)` while the value stays positive,
and leaves the basis untouched (still non-negative) once the market value
has gone non-positive. -/
theorem monthStep_inv {p : Params} (hpost : 0 ≤ p.post_ret_return)
    (hmi : 0 ≤ p.monthly_inflation_geom) (hda : 0 ≤ p.debt_allocation)
    (hts : 0 ≤ p.debt_tax_slab) {s : DepState} (h : DepInv s) :
    DepInv (monthStep p s).1 := by
  obtain ⟨hexp, hbasis, hmfB⟩ := h
  have hmi2 : 0 ≤ p.monthly_inflation := by
    unfold Params.monthly_inflation
    split_ifs
    · exact le_refl 0
    · exact hmi
  have hr : 0 ≤ p.post_ret_return / 12 := by positivity
  simp only [monthStep, DepInv]
  set mf1 := s.mf * (1 + p.post_ret_return / 12) with hmf1
  set tax := if p.include_ltcg ∧ 0 < mf1 then
      calculate_ltcg_tax s.exp s.basis mf1 p.equity_allocation p.debt_allocation
        p.debt_tax_slab (p.ltcg_exempt_limit / 12)
    else 0 with htaxdef
  set w := s.exp + tax with hwdef
  set mf2 := mf1 - w with hmf2def
  have htax : 0 ≤ tax := by
    rw [htaxdef]
    split_ifs with hc
    · exact ltcg_tax_nonneg hexp hda hts
    · exact le_refl 0
  have hw : 0 ≤ w := by rw [hwdef]; exact add_nonneg hexp htax
  refine ⟨mul_nonneg hexp (by linarith), ?_, ?_⟩
  · split_ifs with h2
    · have hsum : mf2 + w = mf1 := by rw [hmf2def]; ring
      have hmf1pos : 0 < mf1 := by rw [← hsum]; linarith
      have hfac : (1 : ℚ) - w / (mf2 + w) = mf2 / mf1 := by
        rw [hsum]
        rw [eq_div_iff hmf1pos.ne', sub_mul, div_mul_cancel₀ _ hmf1pos.ne', hmf2def]
        ring
      rw [hfac]
      exact mul_nonneg hbasis (div_nonneg h2.le hmf1pos.le)
    · exact hbasis
  · intro h2
    rw [if_pos h2]
    have hsum : mf2 + w = mf1 := by rw [hmf2def]; ring
    have hmf1pos : 0 < mf1 := by rw [← hsum]; linarith
    have hmfpos : 0 < s.mf := by
      rcases mul_pos_iff.1 (hmf1 ▸ hmf1pos) with ⟨h3, _⟩ | ⟨_, h4⟩
      · exact h3
      · linarith
    have hble : s.basis ≤ mf1 := by
      calc s.basis ≤ s.mf := hmfB hmfpos
        _ ≤ mf1 := by rw [hmf1]; exact le_mul_of_one_le_right hmfpos.le (by linarith)
    have hfac : (1 : ℚ) - w / (mf2 + w) = mf2 / mf1 := by
      rw [hsum]
      rw [eq_div_iff hmf1pos.ne', sub_mul, div_mul_cancel₀ _ hmf1pos.ne', hmf2def]
      ring
    rw [hfac]
    calc s.basis * (mf2 / mf1) ≤ mf1 * (mf2 / mf1) :=
          mul_le_mul_of_nonneg_right hble (div_nonneg h2.le hmf1pos.le)
      _ = mf2 := by rw [mul_comm, div_mul_cancel₀ _ hmf1pos.ne']

/-- Every state reached inside a year's month loop satisfies `DepInv`. -/
theorem runMonths_inv {p : Params} (hpost : 0 ≤ p.post_ret_return)
    (hmi : 0 ≤ p.monthly_inflation_geom) (hda : 0 ≤ p.debt_allocation)
    (hts : 0 ≤ p.debt_tax_slab) :
    ∀ (n : ℕ) (s : DepState), DepInv s → ∀ x ∈ runMonths p n s, DepInv x.1 := by
  intro n
  induction n with
  | zero => intro s h x hx; simp [runMonths] at hx
  | succ k ih =>
    intro s h x hx
    simp only [runMonths] at hx
    have hstep := monthStep_inv hpost hmi hda hts h
    split_ifs at hx with h1
    · rw [List.mem_singleton] at hx; rw [hx]; exact hstep
    · rcases List.mem_cons.1 hx with hx | hx
      · rw [hx]; exact hstep
      · exact ih _ hstep x hx

/-- Every state of the whole decumulation trace satisfies `DepInv`. -/
theorem depLoop_trace_inv {p : Params} (hpost : 0 ≤ p.post_ret_return)
    (hmi : 0 ≤ p.monthly_inflation_geom) (hda : 0 ≤ p.debt_allocation)
    (hts : 0 ≤ p.debt_tax_slab) :
    ∀ (fuel age : ℕ) (s : DepState) (cum : ℚ), DepInv s →
      ∀ x ∈ (depLoop p fuel age s cum).trace, DepInv x := by
  intro fuel
  induction fuel with
  | zero => intro age s cum h x hx; simp [depLoop] at hx
  | succ n ih =>
    intro age s cum h x hx
    simp only [depLoop] at hx
    split_ifs at hx with h1 h2
    · obtain ⟨y, hy, hyx⟩ := List.mem_map.1 hx
      rw [← hyx]
      exact runMonths_inv hpost hmi hda hts 12 s h y hy
    · rcases List.mem_append.1 hx with hx | hx
      · obtain ⟨y, hy, hyx⟩ := List.mem_map.1 hx
        rw [← hyx]
        exact runMonths_inv hpost hmi hda hts 12 s h y hy
      · have hs1 : DepInv ((runMonths p 12 s).getLastD (s, 0)).1 := by
          rcases getLastD_eq_or_mem (runMonths p 12 s) (s, 0) with hh | hh
          · rw [hh]; exact h
          · exact runMonths_inv hpost hmi hda hts 12 s h _ hh
        exact ih (age + 1) _ _ hs1 x hx
    · simp at hx

/-- The totalized SIP component is non-negative for non-negative inputs. -/
theorem sipVal_nonneg {p : Params} (hc : 0 ≤ p.monthly_sip)
    (hr : 0 ≤ p.pre_ret_return) (y : ℕ) : 0 ≤ sipVal p y := by
  unfold sipVal
  split_ifs with hm
  · exact annuity_term_nonneg hc (by positivity) _
  · exact le_refl 0

/-- The totalized EPF component is non-negative for non-negative inputs. -/
theorem epfVal_nonneg {p : Params} (he : 0 ≤ p.existing_epf) (hc : 0 ≤ p.monthly_epf)
    (hr : 0 ≤ p.epf_return) (y : ℕ) : 0 ≤ epfVal p y := by
  have hg : 0 ≤ p.existing_epf * (1 + p.epf_return) ^ y :=
    mul_nonneg he (pow_nonneg (by linarith) y)
  unfold epfVal
  split_ifs with hc2 hm
  · exact add_nonneg hg (annuity_term_nonneg hc (by positivity) _)
  · rw [add_zero]; exact hg
  · exact le_refl 0

/-- All four components of a successful accumulation row are non-negative
under non-negative inputs. -/
theorem row_comps_nonneg {p : Params} {row : Row} {y : ℕ}
    (h : accRow p y = some row)
    (hpf : 0 ≤ p.current_portfolio) (hsip : 0 ≤ p.monthly_sip)
    (hee : 0 ≤ p.existing_epf) (hme : 0 ≤ p.monthly_epf) (her : 0 ≤ p.epf_return)
    (hoa : 0 ≤ p.other_assets) (hap : 0 ≤ p.asset_appreciation)
    (hpre : 0 ≤ p.pre_ret_return) (hinf : 0 ≤ p.inflation_rate) :
    0 ≤ row.1 ∧ 0 ≤ row.2.1 ∧ 0 ≤ row.2.2.1 ∧ 0 ≤ row.2.2.2 := by
  rw [accRow_some_inv h]
  have hip := (inflFac_pos hinf y).le
  refine ⟨?_, ?_, ?_, ?_⟩ <;> apply div_nonneg _ (by norm_num) <;> apply div_nonneg _ hip
  · exact mul_nonneg hpf (pow_nonneg (by linarith) y)
  · exact sipVal_nonneg hsip hpre y
  · exact epfVal_nonneg hee hme her y
  · exact mul_nonneg hoa (pow_nonneg (by linarith) y)

/-- Projection of the assembled record: terminal corpus. -/
theorem planAssemble_total_at_ret (p : Params) (rows : List Row) (t : Row) :
    (planAssemble p rows t).total_at_ret = total_at_ret_of t := rfl

/-- Projection of the assembled record: corpus after the one-time
outflow. -/
theorem planAssemble_corpus_after (p : Params) (rows : List Row) (t : Row) :
    (planAssemble p rows t).corpus_after_one_time =
      total_at_ret_of t - p.one_time_exp := rfl

/-- Projection of the assembled record: the monthly state trace. -/
theorem planAssemble_dep_trace (p : Params) (rows : List Row) (t : Row) :
    (planAssemble p rows t).dep_trace = (depOut p t).trace := rfl

/-! ### The claims -/

/-- C9: for every input with `retirement_age ≤ current_age` the
module-level flow stops with a precondition error and never invokes
`calculate_retirement_plan` (source lines 35-37). -/
theorem claim_C9 (p : Params) (h : p.retirement_age ≤ p.current_age) :
    runApp p = AppOutcome.precondition_error := by
  simp [runApp, h]

/-- Witness for C9 at equal current and retirement ages. -/
theorem claim_C9_witness :
    pC9w.retirement_age ≤ pC9w.current_age ∧
      runApp pC9w = AppOutcome.precondition_error :=
  ⟨by norm_num [pC9w], claim_C9 pC9w (by norm_num [pC9w])⟩

/-- C5: for non-negative inputs, the monthly LTCG tax is non-negative and
never exceeds the total withdrawal (expense plus tax) drawn that month. -/
theorem claim_C5 (w b cv ea da ts ex : ℚ) (hw : 0 ≤ w) (hb : 0 ≤ b) (hcv : 0 ≤ cv)
    (hea0 : 0 ≤ ea) (hea1 : ea ≤ 1) (hda0 : 0 ≤ da) (hda1 : da ≤ 1)
    (hts0 : 0 ≤ ts) (hts1 : ts ≤ 1) (hex : 0 ≤ ex) :
    0 ≤ calculate_ltcg_tax w b cv ea da ts ex ∧
      calculate_ltcg_tax w b cv ea da ts ex ≤
        w + calculate_ltcg_tax w b cv ea da ts ex := by
  have h0 : 0 ≤ calculate_ltcg_tax w b cv ea da ts ex := ltcg_tax_nonneg hw hda0 hts0
  exact ⟨h0, by linarith⟩

/-- Witness for C5 at a concrete withdrawal with gains. -/
theorem claim_C5_witness :
    0 ≤ calculate_ltcg_tax 1000 0 2000 (7 / 10) (3 / 10) (1 / 10) 100 ∧
      calculate_ltcg_tax 1000 0 2000 (7 / 10) (3 / 10) (1 / 10) 100 ≤
        1000 + calculate_ltcg_tax 1000 0 2000 (7 / 10) (3 / 10) (1 / 10) 100 :=
  claim_C5 1000 0 2000 (7 / 10) (3 / 10) (1 / 10) 100 (by norm_num) (by norm_num)
    (by norm_num) (by norm_num) (by norm_num) (by norm_num) (by norm_num)
    (by norm_num) (by norm_num) (by norm_num)

set_option maxHeartbeats 4000000 in
/-- C2 (code bug): the source does not special-case a zero growth rate.
With `pre_ret_return = 0` (or a zero EPF rate with a positive monthly EPF
contribution) the closed-form annuity expression divides by zero — the
embedding returns `none`, mirroring Python's `ZeroDivisionError` at source
lines 197/209 — instead of returning the linear sum required by the
claim. -/
theorem claim_C2_div_by_zero :
    sip_accumulation 100000 (0 / 12) 12 = none ∧
      epf_accumulation 1050000 6000 0 (0 / 12) 1 12 = none ∧
      calculate_retirement_plan pC2cex = none := by
  refine ⟨by norm_num [sip_accumulation], by norm_num [epf_accumulation], ?_⟩
  norm_num [calculate_retirement_plan, pC2cex, yearsToRet, accRows, accRow,
    sip_accumulation, epf_accumulation, List.range_succ]

set_option maxHeartbeats 4000000 in
/-- C1 counterexample: a parameter set that is valid in the claim's sense
(retirement age above current age, every rate and amount non-negative)
on which the engine produces no trajectory at all — the zero
pre-retirement return makes the SIP annuity formula divide by zero. -/
theorem claim_C1_cex :
    pC1cex.current_age < pC1cex.retirement_age ∧
      0 ≤ pC1cex.current_portfolio ∧ 0 ≤ pC1cex.monthly_sip ∧
      0 ≤ pC1cex.existing_epf ∧ 0 ≤ pC1cex.monthly_epf ∧ 0 ≤ pC1cex.epf_return ∧
      0 ≤ pC1cex.other_assets ∧ 0 ≤ pC1cex.asset_appreciation ∧
      0 ≤ pC1cex.pre_ret_return ∧ 0 ≤ pC1cex.post_ret_return ∧
      0 ≤ pC1cex.inflation_rate ∧ 0 ≤ pC1cex.current_monthly_exp ∧
      0 ≤ pC1cex.one_time_exp ∧
      calculate_retirement_plan pC1cex = none := by
  norm_num [pC1cex, calculate_retirement_plan, yearsToRet, accRows, accRow,
    sip_accumulation, epf_accumulation, List.range_succ]

/-- C1 (amended): additionally assuming the annuity rates are
non-degenerate — a positive pre-retirement return, and a positive EPF rate
whenever the monthly EPF contribution is positive — every valid parameter
set yields an accumulation trajectory of exactly
`retirement_age - current_age + 1` entries whose stored component values
are all non-negative. -/
theorem claim_C1_amended (p : Params)
    (hage : p.current_age < p.retirement_age)
    (hpf : 0 ≤ p.current_portfolio) (hsip : 0 ≤ p.monthly_sip)
    (hee : 0 ≤ p.existing_epf) (hme : 0 ≤ p.monthly_epf) (her : 0 ≤ p.epf_return)
    (hoa : 0 ≤ p.other_assets) (hap : 0 ≤ p.asset_appreciation)
    (hpre : 0 < p.pre_ret_return) (hinf : 0 ≤ p.inflation_rate)
    (hepf : p.monthly_epf = 0 ∨ 0 < p.epf_return) :
    ∃ r, calculate_retirement_plan p = some r ∧
      r.acc_ages.length = p.retirement_age - p.current_age + 1 ∧
      r.lump_vals.length = p.retirement_age - p.current_age + 1 ∧
      r.sip_vals.length = p.retirement_age - p.current_age + 1 ∧
      r.epf_vals.length = p.retirement_age - p.current_age + 1 ∧
      r.asset_vals.length = p.retirement_age - p.current_age + 1 ∧
      (∀ v ∈ r.lump_vals, 0 ≤ v) ∧ (∀ v ∈ r.sip_vals, 0 ≤ v) ∧
      (∀ v ∈ r.epf_vals, 0 ≤ v) ∧ (∀ v ∈ r.asset_vals, 0 ≤ v) := by
  have hpre' : p.pre_ret_return ≠ 0 := hpre.ne'
  have hepf' : p.monthly_epf ≤ 0 ∨ p.epf_return ≠ 0 := by
    rcases hepf with h | h
    · exact Or.inl h.le
    · exact Or.inr h.ne'
  obtain ⟨rows, hrows⟩ : ∃ rows, accRows p (List.range (yearsToRet p + 1)) = some rows :=
    accRows_isSome (fun y _ => accRow_isSome_of_pos hpre' hepf' y)
  have hlen : rows.length = yearsToRet p + 1 := by
    rw [accRows_length hrows]; simp
  have hne : rows ≠ [] := by
    intro hnil
    rw [hnil] at hlen
    simp at hlen
  have hplan : calculate_retirement_plan p =
      some (planAssemble p rows (rows.getLast hne)) := by
    simp only [calculate_retirement_plan, hrows, List.getLast?_eq_getLast rows hne]
  have hmem : ∀ row ∈ rows, 0 ≤ row.1 ∧ 0 ≤ row.2.1 ∧ 0 ≤ row.2.2.1 ∧ 0 ≤ row.2.2.2 := by
    intro row hrow
    obtain ⟨y, _, hacc⟩ := accRows_mem hrows row hrow
    exact row_comps_nonneg hacc hpf hsip hee hme her hoa hap hpre.le hinf
  refine ⟨planAssemble p rows (rows.getLast hne), hplan,
    ?_, ?_, ?_, ?_, ?_, ?_, ?_, ?_, ?_⟩
  · simp [planAssemble, yearsToRet]
  · simp [planAssemble, hlen, yearsToRet]
  · simp [planAssemble, hlen, yearsToRet]
  · simp [planAssemble, hlen, yearsToRet]
  · simp [planAssemble, hlen, yearsToRet]
  · intro v hv
    simp only [planAssemble] at hv
    obtain ⟨row, hrow, hrv⟩ := List.mem_map.1 hv
    rw [← hrv]
    exact (hmem row hrow).1
  · intro v hv
    simp only [planAssemble] at hv
    obtain ⟨row, hrow, hrv⟩ := List.mem_map.1 hv
    rw [← hrv]
    exact (hmem row hrow).2.1
  · intro v hv
    simp only [planAssemble] at hv
    obtain ⟨row, hrow, hrv⟩ := List.mem_map.1 hv
    rw [← hrv]
    exact (hmem row hrow).2.2.1
  · intro v hv
    simp only [planAssemble] at hv
    obtain ⟨row, hrow, hrv⟩ := List.mem_map.1 hv
    rw [← hrv]
    exact (hmem row hrow).2.2.2

/-- Witness for the amended C1: one full accumulation year with every
component active. -/
theorem claim_C1_witness :
    ∃ r, calculate_retirement_plan pC1w = some r ∧
      r.acc_ages.length = pC1w.retirement_age - pC1w.current_age + 1 ∧
      r.lump_vals.length = pC1w.retirement_age - pC1w.current_age + 1 ∧
      r.sip_vals.length = pC1w.retirement_age - pC1w.current_age + 1 ∧
      r.epf_vals.length = pC1w.retirement_age - pC1w.current_age + 1 ∧
      r.asset_vals.length = pC1w.retirement_age - pC1w.current_age + 1 ∧
      (∀ v ∈ r.lump_vals, 0 ≤ v) ∧ (∀ v ∈ r.sip_vals, 0 ≤ v) ∧
      (∀ v ∈ r.epf_vals, 0 ≤ v) ∧ (∀ v ∈ r.asset_vals, 0 ≤ v) :=
  claim_C1_amended pC1w (by norm_num [pC1w]) (by norm_num [pC1w])
    (by norm_num [pC1w]) (by norm_num [pC1w])
    (by norm_num [pC1w]) (by norm_num [pC1w])
    (by norm_num [pC1w]) (by norm_num [pC1w])
    (by norm_num [pC1w]) (by norm_num [pC1w])
    (Or.inr (by norm_num [pC1w]))

/-- C8: when the corpus after the one-time outflow is not positive, no
depletion iteration runs: the depletion trajectory is empty and the
reported survival age is the retirement age. -/
theorem claim_C8 (p : Params) (r : PlanResult)
    (h : calculate_retirement_plan p = some r)
    (hc : r.corpus_after_one_time ≤ 0) :
    r.dep_entries = [] ∧ r.survival_age = p.retirement_age := by
  obtain ⟨rows, t, hrows, ht, hr⟩ := plan_some_inv h
  subst hr
  have hc' : (depStart p t).corpus ≤ 0 := hc
  constructor
  · show (depOut p t).entries = []
    unfold depOut
    rw [depLoop_of_nonpos (not_lt.2 hc')]
  · show (if (depOut p t).final_state.corpus ≤ 0 then (depOut p t).final_age else 100) =
      p.retirement_age
    unfold depOut
    rw [depLoop_of_nonpos (not_lt.2 hc')]
    simp [hc']

set_option maxHeartbeats 4000000 in
/-- Witness for C8: a one-time outflow larger than the whole corpus. -/
theorem claim_C8_witness :
    ∃ r, calculate_retirement_plan pC8w = some r ∧ r.corpus_after_one_time ≤ 0 ∧
      r.dep_entries = [] ∧ r.survival_age = pC8w.retirement_age := by
  have hs : (calculate_retirement_plan pC8w).isSome = true := by
    norm_num [calculate_retirement_plan, pC8w, yearsToRet, accRows, accRow,
      sip_accumulation, epf_accumulation, List.range_succ]
  have hc : ((calculate_retirement_plan pC8w).get hs).corpus_after_one_time ≤ 0 := by
    norm_num [calculate_retirement_plan, pC8w, yearsToRet, accRows, accRow,
      sip_accumulation, epf_accumulation, List.range_succ, planAssemble_corpus_after,
      total_at_ret_of]
  obtain ⟨h1, h2⟩ := claim_C8 pC8w ((calculate_retirement_plan pC8w).get hs)
    (Option.some_get hs).symm hc
  exact ⟨(calculate_retirement_plan pC8w).get hs, (Option.some_get hs).symm, hc, h1, h2⟩

/-- C6: with tax modeling disabled, the reported cumulative tax is zero
and every per-year cumulative-tax entry is zero. -/
theorem claim_C6 (p : Params) (r : PlanResult)
    (hltcg : p.include_ltcg = false)
    (h : calculate_retirement_plan p = some r) :
    r.cumulative_ltcg_tax = 0 ∧ ∀ e ∈ r.dep_entries, e.2.2 = 0 := by
  obtain ⟨rows, t, hrows, ht, hr⟩ := plan_some_inv h
  subst hr
  obtain ⟨h1, h2⟩ := depLoop_tax_zero hltcg (100 - p.retirement_age) p.retirement_age
    (depStart p t) 0
  constructor
  · show (depOut p t).cumulative_tax = 0
    unfold depOut
    exact h1
  · intro e he
    have he' : e ∈ (depLoop p (100 - p.retirement_age) p.retirement_age
        (depStart p t) 0).entries := he
    have := h2 e he'
    simpa using this

set_option maxHeartbeats 4000000 in
/-- Witness for C6 at a tax-disabled parameter set with a full depletion
year. -/
theorem claim_C6_witness :
    pC6w.include_ltcg = false ∧
      ∃ r, calculate_retirement_plan pC6w = some r ∧ r.cumulative_ltcg_tax = 0 ∧
        ∀ e ∈ r.dep_entries, e.2.2 = 0 := by
  have hs : (calculate_retirement_plan pC6w).isSome = true := by
    norm_num [calculate_retirement_plan, pC6w, yearsToRet, accRows, accRow,
      sip_accumulation, epf_accumulation, List.range_succ]
  obtain ⟨h1, h2⟩ := claim_C6 pC6w ((calculate_retirement_plan pC6w).get hs) rfl
    (Option.some_get hs).symm
  exact ⟨rfl, (calculate_retirement_plan pC6w).get hs, (Option.some_get hs).symm, h1, h2⟩

/-- C3: with a positive starting corpus, the depletion loop terminates
after at most `100 - retirement_age` recorded years, stops the first year
the working corpus is no longer positive (every entry but the last is
strictly positive), records only clamped non-negative values, and the
survival age never exceeds 100. -/
theorem claim_C3 (p : Params) (r : PlanResult)
    (h : calculate_retirement_plan p = some r)
    (hc : 0 < r.corpus_after_one_time) :
    r.dep_entries.length ≤ 100 - p.retirement_age ∧
      (∀ e ∈ r.dep_entries, 0 ≤ e.2.1) ∧
      (∀ e ∈ r.dep_entries.dropLast, 0 < e.2.1) ∧
      r.survival_age ≤ 100 := by
  obtain ⟨rows, t, hrows, ht, hr⟩ := plan_some_inv h
  subst hr
  have hc' : 0 < (depStart p t).corpus := hc
  refine ⟨depLoop_entries_length p _ _ _ _, depLoop_entries_nonneg p _ _ _ _,
    depLoop_dropLast_pos p _ _ _ _, ?_⟩
  show (if (depOut p t).final_state.corpus ≤ 0 then (depOut p t).final_age else 100) ≤ 100
  split_ifs with h2
  · by_cases hret : p.retirement_age ≤ 100
    · have := depLoop_final_age_le p (100 - p.retirement_age) p.retirement_age
        (depStart p t) 0
      show (depOut p t).final_age ≤ 100
      unfold depOut
      omega
    · have hf : 100 - p.retirement_age = 0 := by omega
      have hfs : (depOut p t).final_state = depStart p t := by
        unfold depOut
        rw [hf]
        rfl
      rw [hfs] at h2
      exact absurd h2 (not_le.2 hc')
  · exact le_refl 100

set_option maxHeartbeats 4000000 in
/-- Witness for C3: positive corpus, one year of headroom before the age
ceiling. -/
theorem claim_C3_witness :
    ∃ r, calculate_retirement_plan pC3w = some r ∧ 0 < r.corpus_after_one_time ∧
      r.dep_entries.length ≤ 100 - pC3w.retirement_age ∧
      (∀ e ∈ r.dep_entries, 0 ≤ e.2.1) ∧
      (∀ e ∈ r.dep_entries.dropLast, 0 < e.2.1) ∧
      r.survival_age ≤ 100 := by
  have hs : (calculate_retirement_plan pC3w).isSome = true := by
    norm_num [calculate_retirement_plan, pC3w, yearsToRet, accRows, accRow,
      sip_accumulation, epf_accumulation, List.range_succ]
  have hc : 0 < ((calculate_retirement_plan pC3w).get hs).corpus_after_one_time := by
    norm_num [calculate_retirement_plan, pC3w, yearsToRet, accRows, accRow,
      sip_accumulation, epf_accumulation, List.range_succ, planAssemble_corpus_after,
      total_at_ret_of]
  obtain ⟨h1, h2, h3, h4⟩ := claim_C3 pC3w ((calculate_retirement_plan pC3w).get hs)
    (Option.some_get hs).symm hc
  exact ⟨(calculate_retirement_plan pC3w).get hs, (Option.some_get hs).symm, hc,
    h1, h2, h3, h4⟩

/-- C10: with no monthly EPF contribution but a positive existing EPF
balance, the EPF component of the trajectory is identically zero — the
existing balance is dropped from the projected wealth — while the reported
total principal invested still includes the existing balance (source lines
202-215 versus line 327). -/
theorem claim_C10 (p : Params) (h0 : p.monthly_epf = 0) (hex : 0 < p.existing_epf) :
    ∀ r, calculate_retirement_plan p = some r →
      (∀ v ∈ r.epf_vals, v = 0) ∧
      r.total_invested = p.current_portfolio + p.monthly_sip * 12 * (yearsToRet p : ℚ) +
        p.existing_epf := by
  intro r h
  obtain ⟨rows, t, hrows, ht, hr⟩ := plan_some_inv h
  subst hr
  constructor
  · intro v hv
    simp only [planAssemble] at hv
    obtain ⟨row, hrow, hrv⟩ := List.mem_map.1 hv
    obtain ⟨y, hy, hacc⟩ := accRows_mem hrows row hrow
    rw [← hrv, accRow_some_inv hacc]
    have hz : epfVal p y = 0 := by
      unfold epfVal
      rw [h0]
      simp
    simp [hz]
  · show total_invested_mf p + p.existing_epf +
      (if 0 < p.monthly_epf then p.monthly_epf * ((yearsToRet p * 12 : ℕ) : ℚ) else 0) = _
    rw [h0]
    norm_num [total_invested_mf]

set_option maxHeartbeats 4000000 in
/-- Witness for C10: a positive existing EPF balance with no monthly EPF
contribution. -/
theorem claim_C10_witness :
    pC10w.monthly_epf = 0 ∧ 0 < pC10w.existing_epf ∧
      ∃ r, calculate_retirement_plan pC10w = some r ∧ (∀ v ∈ r.epf_vals, v = 0) ∧
        r.total_invested = pC10w.current_portfolio +
          pC10w.monthly_sip * 12 * (yearsToRet pC10w : ℚ) + pC10w.existing_epf := by
  have hex : 0 < pC10w.existing_epf := by norm_num [pC10w]
  have hs : (calculate_retirement_plan pC10w).isSome = true := by
    norm_num [calculate_retirement_plan, pC10w, yearsToRet, accRows, accRow,
      sip_accumulation, epf_accumulation, List.range_succ]
  obtain ⟨h1, h2⟩ := claim_C10 pC10w rfl hex ((calculate_retirement_plan pC10w).get hs)
    (Option.some_get hs).symm
  exact ⟨rfl, hex, (calculate_retirement_plan pC10w).get hs, (Option.some_get hs).symm,
    h1, h2⟩

set_option maxHeartbeats 4000000 in
/-- C4 counterexample: a simulation with tax modeling on in which the MF
balance is exhausted mid-year while large other assets keep the total
corpus positive; once the MF value goes non-positive the basis is no
longer updated (source line 295), so a reached monthly state has
`mf < basis`, violating `cost_basis ≤ corpus value`. -/
theorem claim_C4_cex :
    pC4cex.include_ltcg = true ∧
      ∃ r, calculate_retirement_plan pC4cex = some r ∧
        ∃ s ∈ r.dep_trace, s.mf < s.basis := by
  refine ⟨rfl, ?_⟩
  norm_num [calculate_retirement_plan, pC4cex, yearsToRet, accRows, accRow,
    sip_accumulation, epf_accumulation, List.range_succ, planAssemble_dep_trace, depOut,
    depStart, total_at_ret_of, total_invested_mf, exp_at_ret_of, depLoop, runMonths,
    monthStep, calculate_ltcg_tax, Params.monthly_inflation]

/-- C4 (amended): under non-negative inputs with nominal display and a
positive pre-retirement return, every monthly state of the decumulation
trace keeps `0 ≤ cost_basis`, and keeps `cost_basis ≤ mf value` for as
long as the mf value remains positive; once the mf value goes
non-positive, only the lower bound survives. -/
theorem claim_C4_amended (p : Params)
    (hreal : p.show_real_terms = false)
    (hpf : 0 ≤ p.current_portfolio) (hsip : 0 ≤ p.monthly_sip)
    (hexp : 0 ≤ p.current_monthly_exp) (hinf : 0 ≤ p.inflation_rate)
    (hpost : 0 ≤ p.post_ret_return) (hmi : 0 ≤ p.monthly_inflation_geom)
    (hda : 0 ≤ p.debt_allocation) (hts : 0 ≤ p.debt_tax_slab)
    (hpre : 0 < p.pre_ret_return) :
    ∀ r, calculate_retirement_plan p = some r →
      ∀ s ∈ r.dep_trace, 0 ≤ s.basis ∧ (0 < s.mf → s.basis ≤ s.mf) := by
  intro r h s hs
  obtain ⟨rows, t, hrows, ht, hr⟩ := plan_some_inv h
  subst hr
  rw [List.range_succ] at hrows
  obtain ⟨t', ht', hacc⟩ := accRows_getLast hrows
  rw [ht'] at ht
  rw [Option.some.inj ht] at hacc
  have hinfl : inflFac p (yearsToRet p) = 1 := by
    unfold inflFac
    simp [hreal]
  have hmf0 : (depStart p t).mf =
      p.current_portfolio * (1 + p.pre_ret_return) ^ yearsToRet p +
        sipVal p (yearsToRet p) := by
    show (t.1 + t.2.1) * 10 ^ 7 = _
    rw [accRow_some_inv hacc]
    rw [hinfl]
    field_simp
  have hbasis0 : (depStart p t).basis =
      p.current_portfolio + p.monthly_sip * 12 * (yearsToRet p : ℚ) := rfl
  have hexp0 : 0 ≤ (depStart p t).exp := by
    show 0 ≤ exp_at_ret_of p
    unfold exp_at_ret_of
    rw [hreal]
    simp only [Bool.false_eq_true, if_false]
    exact mul_nonneg hexp (pow_nonneg (by linarith) _)
  have hsipge : p.monthly_sip * 12 * (yearsToRet p : ℚ) ≤ sipVal p (yearsToRet p) := by
    unfold sipVal
    split_ifs with hm
    · have hb := annuity_term_ge_linear hsip (show 0 < p.pre_ret_return / 12 by positivity)
        (yearsToRet p * 12)
      calc p.monthly_sip * 12 * (yearsToRet p : ℚ)
          = p.monthly_sip * ((yearsToRet p * 12 : ℕ) : ℚ) := by push_cast; ring
        _ ≤ _ := hb
    · have hy : yearsToRet p = 0 := by omega
      rw [hy]
      norm_num
  have hlumpge : p.current_portfolio ≤
      p.current_portfolio * (1 + p.pre_ret_return) ^ yearsToRet p :=
    le_mul_of_one_le_right hpf (one_le_pow₀ (by linarith))
  have hinv0 : DepInv (depStart p t) := by
    refine ⟨hexp0, ?_, fun _ => ?_⟩
    · rw [hbasis0]
      have : (0:ℚ) ≤ (yearsToRet p : ℚ) := Nat.cast_nonneg _
      have : 0 ≤ p.monthly_sip * 12 * (yearsToRet p : ℚ) := by positivity
      linarith
    · rw [hbasis0, hmf0]
      linarith
  exact (depLoop_trace_inv hpost hmi hda hts (100 - p.retirement_age) p.retirement_age
    (depStart p t) 0 hinv0 s hs).2

set_option maxHeartbeats 4000000 in
/-- Witness for the amended C4: the same tax-enabled run as the
counterexample satisfies the conditional invariant. -/
theorem claim_C4_witness :
    ∃ r, calculate_retirement_plan pC4cex = some r ∧
      ∀ s ∈ r.dep_trace, 0 ≤ s.basis ∧ (0 < s.mf → s.basis ≤ s.mf) := by
  have hs : (calculate_retirement_plan pC4cex).isSome = true := by
    norm_num [calculate_retirement_plan, pC4cex, yearsToRet, accRows, accRow,
      sip_accumulation, epf_accumulation, List.range_succ]
  have := claim_C4_amended pC4cex rfl (by norm_num [pC4cex])
    (by norm_num [pC4cex]) (by norm_num [pC4cex])
    (by norm_num [pC4cex]) (by norm_num [pC4cex])
    (by norm_num [pC4cex]) (by norm_num [pC4cex])
    (by norm_num [pC4cex]) (by norm_num [pC4cex])
    ((calculate_retirement_plan pC4cex).get hs) (Option.some_get hs).symm
  exact ⟨(calculate_retirement_plan pC4cex).get hs, (Option.some_get hs).symm, this⟩

/-- The EPF component is monotone in the year offset for non-negative
inputs. -/
theorem epfVal_mono {p : Params} (hee : 0 ≤ p.existing_epf) (hme : 0 ≤ p.monthly_epf)
    (her : 0 ≤ p.epf_return) {y1 y2 : ℕ} (h : y1 ≤ y2) : epfVal p y1 ≤ epfVal p y2 := by
  unfold epfVal
  split_ifs with hc h1 h2
  · apply add_le_add
    · exact mul_le_mul_of_nonneg_left (pow_le_pow_right₀ (by linarith) h) hee
    · exact annuity_term_mono hme (by positivity) (by omega)
  · omega
  · apply add_le_add
    · exact mul_le_mul_of_nonneg_left (pow_le_pow_right₀ (by linarith) h) hee
    · exact annuity_term_nonneg hme (by positivity) _
  · apply add_le_add
    · exact mul_le_mul_of_nonneg_left (pow_le_pow_right₀ (by linarith) h) hee
    · exact le_refl 0
  · exact le_refl 0

/-- The SIP component is strictly increasing in the year offset for a
positive contribution and rate. -/
theorem sipVal_lt {p : Params} (hsip : 0 < p.monthly_sip) (hpre : 0 < p.pre_ret_return)
    {y1 y2 : ℕ} (h0 : 0 < y1) (h : y1 < y2) : sipVal p y1 < sipVal p y2 := by
  unfold sipVal
  rw [if_pos (by omega : 0 < y1 * 12), if_pos (by omega : 0 < y2 * 12)]
  exact annuity_term_lt hsip (by positivity) (by omega)

/-- With nominal display, the terminal corpus is the sum of the four
closed-form components at the final year offset. -/
theorem total_at_ret_closed {p : Params} {r : PlanResult}
    (h : calculate_retirement_plan p = some r) (hreal : p.show_real_terms = false) :
    r.total_at_ret =
      p.current_portfolio * (1 + p.pre_ret_return) ^ yearsToRet p +
        sipVal p (yearsToRet p) + epfVal p (yearsToRet p) +
        p.other_assets * (1 + p.asset_appreciation) ^ yearsToRet p := by
  obtain ⟨rows, t, hrows, ht, hr⟩ := plan_some_inv h
  subst hr
  rw [List.range_succ] at hrows
  obtain ⟨t', ht', hacc⟩ := accRows_getLast hrows
  rw [ht'] at ht
  rw [Option.some.inj ht] at hacc
  have hinfl : inflFac p (yearsToRet p) = 1 := by
    unfold inflFac
    simp [hreal]
  show total_at_ret_of t = _
  rw [accRow_some_inv hacc]
  unfold total_at_ret_of
  rw [hinfl]
  field_simp

set_option maxHeartbeats 4000000 in
/-- C7 counterexample: in real-terms display with inflation far above the
return, the later retirement age B = 44 produces a strictly smaller
deflated terminal corpus than A = 43, even though the pre-retirement
return is positive and the monthly SIP is nonzero and all other
parameters are identical. -/
theorem claim_C7_cex :
    pC7cexA.current_age < pC7cexA.retirement_age ∧
      pC7cexB = { pC7cexA with retirement_age := 44 } ∧
      pC7cexA.retirement_age < pC7cexB.retirement_age ∧
      0 < pC7cexA.pre_ret_return ∧ pC7cexA.monthly_sip ≠ 0 ∧
      ∃ rA rB, calculate_retirement_plan pC7cexA = some rA ∧
        calculate_retirement_plan pC7cexB = some rB ∧
        rB.total_at_ret < rA.total_at_ret := by
  refine ⟨by norm_num [pC7cexA], rfl, by norm_num [pC7cexA, pC7cexB],
    by norm_num [pC7cexA], by norm_num [pC7cexA], ?_⟩
  have hsA : (calculate_retirement_plan pC7cexA).isSome = true := by
    norm_num [calculate_retirement_plan, pC7cexA, yearsToRet, accRows, accRow,
      sip_accumulation, epf_accumulation, List.range_succ]
  have hsB : (calculate_retirement_plan pC7cexB).isSome = true := by
    norm_num [calculate_retirement_plan, pC7cexB, pC7cexA, yearsToRet, accRows,
      accRow, sip_accumulation, epf_accumulation, List.range_succ]
  have hlt : ((calculate_retirement_plan pC7cexB).get hsB).total_at_ret <
      ((calculate_retirement_plan pC7cexA).get hsA).total_at_ret := by
    norm_num [calculate_retirement_plan, pC7cexB, pC7cexA, yearsToRet, accRows,
      accRow, sip_accumulation, epf_accumulation, List.range_succ,
      planAssemble_total_at_ret, total_at_ret_of]
  exact ⟨(calculate_retirement_plan pC7cexA).get hsA,
    (calculate_retirement_plan pC7cexB).get hsB, (Option.some_get hsA).symm,
    (Option.some_get hsB).symm, hlt⟩

/-- C7 (amended): with nominal (not real-terms) display, non-negative
amounts and rates, a positive pre-retirement return and a positive monthly
SIP, retiring later strictly increases the terminal corpus. -/
theorem claim_C7_amended (p : Params) (A B : ℕ)
    (hA : p.current_age < A) (hAB : A < B)
    (hreal : p.show_real_terms = false)
    (hpre : 0 < p.pre_ret_return) (hsip : 0 < p.monthly_sip)
    (hpf : 0 ≤ p.current_portfolio) (hee : 0 ≤ p.existing_epf)
    (hme : 0 ≤ p.monthly_epf) (her : 0 ≤ p.epf_return)
    (hoa : 0 ≤ p.other_assets) (hap : 0 ≤ p.asset_appreciation) :
    ∀ rA, calculate_retirement_plan { p with retirement_age := A } = some rA →
      ∀ rB, calculate_retirement_plan { p with retirement_age := B } = some rB →
        rA.total_at_ret < rB.total_at_ret := by
  intro rA hrA rB hrB
  rw [total_at_ret_closed hrA hreal, total_at_ret_closed hrB hreal]
  show p.current_portfolio * (1 + p.pre_ret_return) ^ (A - p.current_age) +
      sipVal p (A - p.current_age) + epfVal p (A - p.current_age) +
      p.other_assets * (1 + p.asset_appreciation) ^ (A - p.current_age) <
    p.current_portfolio * (1 + p.pre_ret_return) ^ (B - p.current_age) +
      sipVal p (B - p.current_age) + epfVal p (B - p.current_age) +
      p.other_assets * (1 + p.asset_appreciation) ^ (B - p.current_age)
  have hY0 : 0 < A - p.current_age := by omega
  have hYY : A - p.current_age < B - p.current_age := by omega
  have h1 : p.current_portfolio * (1 + p.pre_ret_return) ^ (A - p.current_age) ≤
      p.current_portfolio * (1 + p.pre_ret_return) ^ (B - p.current_age) :=
    mul_le_mul_of_nonneg_left (pow_le_pow_right₀ (by linarith) hYY.le) hpf
  have h2 : sipVal p (A - p.current_age) < sipVal p (B - p.current_age) :=
    sipVal_lt hsip hpre hY0 hYY
  have h3 : epfVal p (A - p.current_age) ≤ epfVal p (B - p.current_age) :=
    epfVal_mono hee hme her hYY.le
  have h4 : p.other_assets * (1 + p.asset_appreciation) ^ (A - p.current_age) ≤
      p.other_assets * (1 + p.asset_appreciation) ^ (B - p.current_age) :=
    mul_le_mul_of_nonneg_left (pow_le_pow_right₀ (by linarith) hYY.le) hoa
  linarith

set_option maxHeartbeats 4000000 in
/-- Witness for the amended C7: nominal display, ages 43 versus 44. -/
theorem claim_C7_witness :
    ∃ rA rB,
      calculate_retirement_plan { pC7w with retirement_age := 43 } = some rA ∧
        calculate_retirement_plan { pC7w with retirement_age := 44 } = some rB ∧
        rA.total_at_ret < rB.total_at_ret := by
  have hsA : (calculate_retirement_plan { pC7w with retirement_age := 43 }).isSome = true := by
    norm_num [calculate_retirement_plan, pC7w, yearsToRet, accRows, accRow,
      sip_accumulation, epf_accumulation, List.range_succ]
  have hsB : (calculate_retirement_plan { pC7w with retirement_age := 44 }).isSome = true := by
    norm_num [calculate_retirement_plan, pC7w, yearsToRet, accRows, accRow,
      sip_accumulation, epf_accumulation, List.range_succ]
  have hlt := claim_C7_amended pC7w 43 44 (by norm_num [pC7w]) (by norm_num)
    rfl (by norm_num [pC7w]) (by norm_num [pC7w])
    (by norm_num [pC7w]) (by norm_num [pC7w])
    (by norm_num [pC7w]) (by norm_num [pC7w])
    (by norm_num [pC7w]) (by norm_num [pC7w])
    ((calculate_retirement_plan { pC7w with retirement_age := 43 }).get hsA)
    (Option.some_get hsA).symm
    ((calculate_retirement_plan { pC7w with retirement_age := 44 }).get hsB)
    (Option.some_get hsB).symm
  exact ⟨(calculate_retirement_plan { pC7w with retirement_age := 43 }).get hsA,
    (calculate_retirement_plan { pC7w with retirement_age := 44 }).get hsB,
    (Option.some_get hsA).symm, (Option.some_get hsB).symm, hlt⟩

end RetirementApp
